import Mathlib

/-!
# Verification of the FloatingGallery widget (src/floating-gallery.js)

A shallow embedding of the `FloatingGallery` class: configuration
resolution in the constructor, particle creation, the per-frame
position/velocity update with edge bounce, the desktop pointer-influence
and mobile scroll-influence offsets, and the pause/resume/destroy
lifecycle.  JavaScript numbers are modelled as real numbers; the one
place where IEEE-754 behaviour matters (division by a zero distance
producing NaN) gets a dedicated NaN-tracking model.
-/

namespace FloatingGallery

/-! ## Configuration (constructor, lines 7-30)

Each numeric option is resolved as `options.field || default`: a missing
option (`none`) or a falsy value (`0`) is replaced by the default. -/

/-- An options object passed to the constructor: every field is optional. -/
structure Options where
  images : Option (List String) := none
  count : Option ℝ := none
  size : Option ℝ := none
  opacity : Option ℝ := none
  blur : Option ℝ := none
  driftSpeed : Option ℝ := none
  mouseInfluence : Option ℝ := none
  mobileScrollInfluence : Option ℝ := none
  zIndex : Option ℝ := none

/-- JavaScript `v || d` for a possibly-absent numeric option: an absent
value or the falsy number `0` yields the default `d`. -/
noncomputable def jsOrNum (v : Option ℝ) (d : ℝ) : ℝ :=
  match v with
  | none => d
  | some x => if x = 0 then d else x

/-- The resolved configuration stored in `this.config`. -/
structure Config where
  images : List String
  count : ℝ
  size : ℝ
  opacity : ℝ
  blur : ℝ
  driftSpeed : ℝ
  mouseInfluence : ℝ
  mobileScrollInfluence : ℝ
  zIndex : ℝ

/-- Constructor configuration resolution (lines 9-20). -/
noncomputable def mkConfig (o : Options) : Config where
  images := o.images.getD []
  count := jsOrNum o.count 6
  size := jsOrNum o.size 70
  opacity := jsOrNum o.opacity 0.25
  blur := jsOrNum o.blur 1
  driftSpeed := jsOrNum o.driftSpeed 0.3
  mouseInfluence := jsOrNum o.mouseInfluence 0.05
  mobileScrollInfluence := jsOrNum o.mobileScrollInfluence 0.02
  zIndex := jsOrNum o.zIndex (-1)

/-! ## Particle creation (createPhotos / createPhoto, lines 65-123)

Only the deterministic part matters for the claims: how many elements
are created and which image source each one receives.  The random
layout fields (initial position, drift angle, size jitter, rotation)
are irrelevant to the creation count and source assignment. -/

/-- `createPhoto(index)` assigns
`images[index % images.length]` as the element source (line 77). -/
def createPhotoSrc (images : List String) (index : ℕ) : String :=
  images.getD (index % images.length) ""

/-- `createPhotos()` (lines 65-73): creates
`imageCount = min(count, images.length)` photos, the i-th from
`createPhoto(i)`; returns the list of assigned image sources in order. -/
def createPhotos (count : ℕ) (images : List String) : List String :=
  (List.range (min count images.length)).map (createPhotoSrc images)

/-! ## The frame update (animate, lines 145-193)

Per particle and per frame: advance the base position by the velocity,
advance the rotation, bounce off the inset viewport edges, then add the
mode-specific influence offset to obtain the rendered position. -/

/-- The fixed bounce inset from the viewport edges (line 153). -/
noncomputable def margin : ℝ := 50

/-- The per-particle animation state mutated by `animate`
(the fields of the `photo` record used by the frame loop). -/
structure Particle where
  baseX : ℝ
  baseY : ℝ
  velocityX : ℝ
  velocityY : ℝ
  rotation : ℝ
  rotationSpeed : ℝ

/-- Lines 147-161 of `animate`: drift advance, rotation advance, and the
edge bounce (velocity sign flip plus clamp) for both axes, with the
viewport `W × H` read during the update. -/
noncomputable def driftBounce (W H : ℝ) (p : Particle) : Particle :=
  let bx := p.baseX + p.velocityX
  let bY := p.baseY + p.velocityY
  let rot := p.rotation + p.rotationSpeed
  let hitX : Prop := bx < margin ∨ bx > W - margin
  let hitY : Prop := bY < margin ∨ bY > H - margin
  { baseX := if hitX then max margin (min (W - margin) bx) else bx
    baseY := if hitY then max margin (min (H - margin) bY) else bY
    velocityX := if hitX then -p.velocityX else p.velocityX
    velocityY := if hitY then -p.velocityY else p.velocityY
    rotation := rot
    rotationSpeed := p.rotationSpeed }

/-- `n` consecutive frame advances of the drift/bounce state. -/
noncomputable def driftBounceIter (W H : ℝ) : ℕ → Particle → Particle
  | 0, p => p
  | n + 1, p => driftBounceIter W H n (driftBounce W H p)

/-- Lines 166-177 of `animate` (desktop branch): given the post-bounce
base position `(x, y)`, the pointer `(mouseX, mouseY)` and the
`mouseInfluence` scalar, the rendered position `(finalX, finalY)`. -/
noncomputable def desktopFinal (mouseX mouseY mouseInfluence x y : ℝ) : ℝ × ℝ :=
  let dx := x - mouseX
  let dy := y - mouseY
  let distance := Real.sqrt (dx * dx + dy * dy)
  let maxDistance : ℝ := 300
  if distance < maxDistance then
    let influence := (1 - distance / maxDistance) * 30
    (x + dx / distance * influence * mouseInfluence * 100,
     y + dy / distance * influence * mouseInfluence * 100)
  else
    (x, y)

/-- Lines 178-182 of `animate` (mobile branch): given the post-bounce
base position `(x, y)`, the scroll position and the
`mobileScrollInfluence` scalar, the rendered position for the particle
with index `index`. -/
noncomputable def mobileFinal (scrollY mobileScrollInfluence : ℝ) (index : ℕ) (x y : ℝ) :
    ℝ × ℝ :=
  let scrollInfluence := Real.sin (scrollY * 0.01 + index) * 20
  (x, y + scrollInfluence * mobileScrollInfluence * 100)

/-- One full frame update of a particle in desktop mode: drift/bounce
followed by the pointer-influence offset on the rendered position. -/
noncomputable def animateDesktop (W H mouseX mouseY mouseInfluence : ℝ) (p : Particle) :
    Particle × ℝ × ℝ :=
  let p' := driftBounce W H p
  (p', desktopFinal mouseX mouseY mouseInfluence p'.baseX p'.baseY)

/-- One full frame update of a particle in mobile mode: drift/bounce
followed by the scroll-influence offset on the rendered position. -/
noncomputable def animateMobile (W H scrollY mobileScrollInfluence : ℝ) (index : ℕ)
    (p : Particle) : Particle × ℝ × ℝ :=
  let p' := driftBounce W H p
  (p', mobileFinal scrollY mobileScrollInfluence index p'.baseX p'.baseY)

/-- The base position lies inside the inset bounce rectangle. -/
noncomputable def inBounds (W H : ℝ) (p : Particle) : Prop :=
  margin ≤ p.baseX ∧ p.baseX ≤ W - margin ∧ margin ≤ p.baseY ∧ p.baseY ≤ H - margin

/-! ## NaN tracking for the desktop influence (lines 166-177)

JavaScript numbers are IEEE-754 doubles.  With finite real inputs the
only non-finite value the desktop branch can produce is `dx / distance`
when `distance = 0` (and then `dx = 0` too, so the result is `NaN`,
which propagates through `*` and `+`).  `Option ℝ` models a double that
is either a finite real (`some`) or non-finite (`none`). -/

/-- JS division: a zero divisor yields a non-finite value (`NaN` when the
dividend is also zero, which is the only case reachable here since
`distance = 0` forces `dx = dy = 0`). -/
noncomputable def jsDiv (x y : ℝ) : Option ℝ :=
  if y = 0 then none else some (x / y)

/-- JS multiplication: `NaN` (and any non-finite value) propagates. -/
def jsMul : Option ℝ → Option ℝ → Option ℝ
  | some a, some b => some (a * b)
  | _, _ => none

/-- JS addition: `NaN` (and any non-finite value) propagates. -/
def jsAdd : Option ℝ → Option ℝ → Option ℝ
  | some a, some b => some (a + b)
  | _, _ => none

/-- Lines 166-177 of `animate` (desktop branch) with IEEE-aware division:
identical to `desktopFinal` except that `dx / distance` is computed by
`jsDiv`, so a zero distance is not silently absorbed. -/
noncomputable def desktopFinalJS (mouseX mouseY mouseInfluence x y : ℝ) :
    Option ℝ × Option ℝ :=
  let dx := x - mouseX
  let dy := y - mouseY
  let distance := Real.sqrt (dx * dx + dy * dy)
  let maxDistance : ℝ := 300
  if distance < maxDistance then
    let influence := (1 - distance / maxDistance) * 30
    (jsAdd (some x) (jsMul (jsDiv dx distance) (some (influence * mouseInfluence * 100))),
     jsAdd (some y) (jsMul (jsDiv dy distance) (some (influence * mouseInfluence * 100))))
  else
    (some x, some y)

/-! ## The destroy lifecycle (init line 62, destroy lines 208-214)

`init` appends the gallery container to the document and registers a
**wrapper arrow function** `() => this.handleResize()` as the window
resize listener.  `destroy` cancels the pending frame, removes the
container, and calls `removeEventListener('resize', this.handleResize)`
— passing the bare method reference, which is a *different* function
object from the registered wrapper.  DOM `removeEventListener` removes
a listener only when the very same function reference was registered. -/

/-- A resize-listener function identity: the arrow wrapper registered by
`init`, or the bare `handleResize` method reference that `destroy`
passes to `removeEventListener`. -/
inductive Listener where
  | resizeWrapper
  | handleResize
deriving DecidableEq

/-- The DOM-facing widget state: whether the gallery container is in the
document, which resize listeners are attached to the window, and
whether a frame callback is pending. -/
structure WidgetDom where
  containerMounted : Bool
  resizeListeners : List Listener
  rafPending : Bool
deriving DecidableEq

/-- The state after construction: container mounted (line 46), the
wrapper arrow registered as resize listener (line 62), and the frame
loop running (lines 59, 192). -/
def initDom : WidgetDom :=
  ⟨true, [Listener.resizeWrapper], true⟩

/-- DOM `removeEventListener`: removes the listener only when the same
function reference is found among the registered ones. -/
def removeEventListener (l : Listener) (ls : List Listener) : List Listener :=
  ls.erase l

/-- `destroy()` (lines 208-214): cancel the pending frame, remove the
container element, and call `removeEventListener` with the bare
`handleResize` reference. -/
def destroy (s : WidgetDom) : WidgetDom :=
  { containerMounted := false
    resizeListeners := removeEventListener Listener.handleResize s.resizeListeners
    rafPending := false }

/-! ## The pause/resume frame loop (lines 145, 192, 231-242)

`animate` ends by scheduling the next frame callback and storing its id
in `this.rafId`.  `pause` cancels the pending callback and nulls
`rafId` only when `rafId` is set; `resume` calls `animate` only when
`rafId` is null; a pending callback fires, runs `animate`, and thereby
reschedules itself. -/

/-- The frame-loop state: how many frame callbacks are currently
scheduled, and whether `this.rafId` is non-null. -/
structure LoopState where
  pending : ℕ
  rafId : Bool
deriving DecidableEq

/-- An event acting on the frame loop: a `pause()` call, a `resume()`
call, or a scheduled frame callback firing. -/
inductive LoopEv where
  | pause
  | resume
  | frame
deriving DecidableEq

/-- One event step.  `pause` (lines 231-236): if `rafId` is set, cancel
the scheduled callback and null `rafId`; otherwise do nothing.
`resume` (lines 238-242): if `rafId` is null, run `animate`, which
schedules a callback and sets `rafId` (line 192); otherwise do nothing.
`frame`: a scheduled callback fires (consuming its schedule slot), runs
`animate`, and reschedules (line 192). -/
def loopStep (s : LoopState) : LoopEv → LoopState
  | .pause => if s.rafId then ⟨s.pending - 1, false⟩ else s
  | .resume => if s.rafId then s else ⟨s.pending + 1, true⟩
  | .frame => if s.pending = 0 then s else ⟨s.pending - 1 + 1, true⟩

/-- The loop state right after construction: the constructor's `init`
called `animate`, which scheduled one callback (line 192). -/
def loopInit : LoopState :=
  ⟨1, true⟩

/-- The loop state after a sequence of events starting from
construction. -/
def loopRun (evs : List LoopEv) : LoopState :=
  evs.foldl loopStep loopInit

/-! ## Theorems -/

/-- Helper: one drift/bounce step lands the base position inside the
inset rectangle, provided each viewport dimension is at least twice the
margin. -/
theorem driftBounce_mem (W H : ℝ) (hW : 2 * margin ≤ W) (hH : 2 * margin ≤ H)
    (p : Particle) : inBounds W H (driftBounce W H p) := by
  have hWm : margin ≤ W - margin := by linarith
  have hHm : margin ≤ H - margin := by linarith
  refine ⟨?_, ?_, ?_, ?_⟩ <;> simp only [driftBounce, inBounds] <;> split
  · exact le_max_left _ _
  · rename_i h
    push_neg at h
    exact h.1
  · exact max_le hWm (min_le_left _ _)
  · rename_i h
    push_neg at h
    exact h.2
  · exact le_max_left _ _
  · rename_i h
    push_neg at h
    exact h.1
  · exact max_le hHm (min_le_left _ _)
  · rename_i h
    push_neg at h
    exact h.2

/-- C1 (amended): after any positive number of consecutive frame
updates with fixed viewport dimensions each at least `2 * margin`, every
particle's base position satisfies
`margin ≤ baseX ≤ W - margin` and `margin ≤ baseY ≤ H - margin`. -/
theorem base_position_clamped (W H : ℝ) (p : Particle) (n : ℕ)
    (hW : 2 * margin ≤ W) (hH : 2 * margin ≤ H) (hn : 1 ≤ n) :
    inBounds W H (driftBounceIter W H n p) := by
  induction n generalizing p with
  | zero => exact absurd hn (by norm_num)
  | succ n ih =>
    rcases Nat.eq_zero_or_pos n with h0 | hpos
    · subst h0
      simpa [driftBounceIter] using driftBounce_mem W H hW hH p
    · exact ih (driftBounce W H p) hpos

/-- Witness for `base_position_clamped` at `W = H = 200`, `n = 1`, a
particle at the origin with zero velocity. -/
theorem base_position_clamped_witness :
    2 * margin ≤ (200 : ℝ) ∧ (1 : ℕ) ≤ 1 ∧
    inBounds 200 200 (driftBounceIter 200 200 1 ⟨0, 0, 0, 0, 0, 0⟩) :=
  ⟨by norm_num [margin], le_rfl,
    base_position_clamped 200 200 ⟨0, 0, 0, 0, 0, 0⟩ 1
      (by norm_num [margin]) (by norm_num [margin]) le_rfl⟩

/-- Counterexample to C1 as stated: with viewport width `60 < 2 * margin`
the clamp lands the base x-coordinate at `50`, which violates
`margin ≤ baseX ≤ 60 - margin` (an empty range). -/
theorem base_position_clamped_counterexample :
    ¬ (margin ≤ (driftBounceIter 60 200 1 ⟨30, 100, 0, 0, 0, 0⟩).baseX ∧
       (driftBounceIter 60 200 1 ⟨30, 100, 0, 0, 0, 0⟩).baseX ≤ 60 - margin) := by
  have hbx : (driftBounceIter 60 200 1 ⟨30, 100, 0, 0, 0, 0⟩).baseX = 50 := by
    norm_num [driftBounceIter, driftBounce, margin, min_def, max_def]
  rintro ⟨-, h2⟩
  rw [hbx] at h2
  norm_num [margin] at h2

/-- C2: in desktop mode, with `d` the Euclidean distance from the
particle's (post-update) base position `(x, y)` to the pointer, a
distance of at least 300 leaves the rendered position equal to the base
position, and a distance below 300 adds the repulsion vector
`(dx/d, dy/d) * ((1 - d/300) * 30 * mouseInfluence * 100)` directed away
from the pointer. -/
theorem desktop_influence_formula (mouseX mouseY mouseInfluence x y : ℝ) :
    (300 ≤ Real.sqrt ((x - mouseX) * (x - mouseX) + (y - mouseY) * (y - mouseY)) →
      desktopFinal mouseX mouseY mouseInfluence x y = (x, y)) ∧
    (Real.sqrt ((x - mouseX) * (x - mouseX) + (y - mouseY) * (y - mouseY)) < 300 →
      desktopFinal mouseX mouseY mouseInfluence x y =
        (x + (x - mouseX) /
            Real.sqrt ((x - mouseX) * (x - mouseX) + (y - mouseY) * (y - mouseY)) *
            ((1 - Real.sqrt ((x - mouseX) * (x - mouseX) + (y - mouseY) * (y - mouseY)) / 300)
              * 30 * mouseInfluence * 100),
         y + (y - mouseY) /
            Real.sqrt ((x - mouseX) * (x - mouseX) + (y - mouseY) * (y - mouseY)) *
            ((1 - Real.sqrt ((x - mouseX) * (x - mouseX) + (y - mouseY) * (y - mouseY)) / 300)
              * 30 * mouseInfluence * 100))) := by
  constructor
  · intro h
    simp only [desktopFinal]
    rw [if_neg (not_lt.mpr h)]
  · intro h
    simp only [desktopFinal]
    rw [if_pos h]
    simp only [Prod.mk.injEq]
    constructor <;> ring

/-- Witness for `desktop_influence_formula`: a particle at `(3, 4)` with
the pointer at the origin (distance 5 < 300) is pushed to
`(1773, 2364)` for `mouseInfluence = 1`; a particle at `(300, 0)`
(distance 300) is left in place. -/
theorem desktop_influence_formula_witness :
    Real.sqrt ((3 - 0) * (3 - 0) + (4 - 0) * (4 - 0)) < 300 ∧
    desktopFinal 0 0 1 3 4 = (1773, 2364) ∧
    300 ≤ Real.sqrt ((300 - 0) * (300 - 0) + (0 - 0) * (0 - 0)) ∧
    desktopFinal 0 0 1 300 0 = (300, 0) := by
  have h5 : Real.sqrt ((3 - 0) * (3 - 0) + (4 - 0) * (4 - 0)) = 5 := by
    rw [show ((3 : ℝ) - 0) * (3 - 0) + (4 - 0) * (4 - 0) = 5 ^ 2 by norm_num]
    exact Real.sqrt_sq (by norm_num)
  have h300 : Real.sqrt ((300 - 0) * (300 - 0) + (0 - 0) * (0 - 0)) = 300 := by
    rw [show ((300 : ℝ) - 0) * (300 - 0) + (0 - 0) * (0 - 0) = 300 ^ 2 by norm_num]
    exact Real.sqrt_sq (by norm_num)
  have hlt : Real.sqrt ((3 - 0) * (3 - 0) + (4 - 0) * (4 - 0)) < 300 := by
    rw [h5]; norm_num
  have hge : 300 ≤ Real.sqrt ((300 - 0) * (300 - 0) + (0 - 0) * (0 - 0)) := by
    rw [h300]
  have hnear := (desktop_influence_formula 0 0 1 3 4).2 hlt
  have hfar := (desktop_influence_formula 0 0 1 300 0).1 hge
  rw [h5] at hnear
  norm_num at hnear
  exact ⟨hlt, hnear, hge, hfar⟩

/-- C4: in mobile mode the full frame update leaves the rendered x equal
to the (post-update) base x, and adds
`sin(scrollY * 0.01 + index) * 20 * mobileScrollInfluence * 100` to the
base y. -/
theorem mobile_offset_formula (W H scrollY msi : ℝ) (index : ℕ) (p : Particle) :
    (animateMobile W H scrollY msi index p).2 =
      ((driftBounce W H p).baseX,
       (driftBounce W H p).baseY + Real.sin (scrollY * 0.01 + index) * 20 * msi * 100) := by
  rfl

/-- C8: the mobile influence, as a function of `scrollY`, is periodic
with period `2π / 0.01`, and particles whose indices differ by `d` are
phase-shifted by exactly `d` radians: particle `i + d` at `scrollY`
renders like particle `i` at `scrollY + d / 0.01`. -/
theorem mobile_wave_period_and_phase (scrollY msi x y : ℝ) (i d : ℕ) :
    mobileFinal (scrollY + 2 * Real.pi / 0.01) msi i x y = mobileFinal scrollY msi i x y ∧
    mobileFinal scrollY msi (i + d) x y = mobileFinal (scrollY + d / 0.01) msi i x y := by
  constructor
  · simp only [mobileFinal, Prod.mk.injEq, true_and]
    have harg : (scrollY + 2 * Real.pi / 0.01) * 0.01 + (i : ℝ) =
        scrollY * 0.01 + (i : ℝ) + 2 * Real.pi := by
      field_simp
      ring
    rw [harg, Real.sin_add_two_pi]
  · simp only [mobileFinal, Prod.mk.injEq, true_and]
    have harg : (scrollY + (d : ℝ) / 0.01) * 0.01 + (i : ℝ) =
        scrollY * 0.01 + ((i + d : ℕ) : ℝ) := by
      push_cast
      field_simp
      ring
    rw [harg]

/-- C5: within one frame update, each velocity component is negated
exactly when the post-advance base coordinate lies outside
`[margin, dimension - margin]`, and is left unchanged otherwise — one
sign flip at most per coordinate per update. -/
theorem bounce_flips_velocity_once (W H : ℝ) (p : Particle) :
    ((driftBounce W H p).velocityX =
      if p.baseX + p.velocityX < margin ∨ p.baseX + p.velocityX > W - margin
      then -p.velocityX else p.velocityX) ∧
    ((driftBounce W H p).velocityY =
      if p.baseY + p.velocityY < margin ∨ p.baseY + p.velocityY > H - margin
      then -p.velocityY else p.velocityY) :=
  ⟨rfl, rfl⟩

/-- C6: construction creates exactly `min count images.length` particle
elements, the i-th carrying source `images[i % images.length]`; in
particular an empty image list creates zero particles. -/
theorem createPhotos_count_and_srcs (count : ℕ) (images : List String) :
    (createPhotos count images).length = min count images.length ∧
    (∀ i, i < min count images.length →
      (createPhotos count images).getD i "" = images.getD (i % images.length) "") ∧
    createPhotos count [] = [] := by
  refine ⟨by simp [createPhotos], ?_, by simp [createPhotos]⟩
  intro i hi
  have hlen : i < (createPhotos count images).length := by
    simpa [createPhotos] using hi
  rw [List.getD_eq_getElem _ _ hlen]
  simp [createPhotos, createPhotoSrc]

/-- Witness for `createPhotos_count_and_srcs`: `count = 3` with
`images = [a, b, c]` creates exactly 3 elements and element 1 gets
image `b = images[1 % 3]`. -/
theorem createPhotos_count_and_srcs_witness :
    (createPhotos 3 ["a", "b", "c"]).length = min 3 (["a", "b", "c"] : List String).length ∧
    (1 < min 3 (["a", "b", "c"] : List String).length ∧
      (createPhotos 3 ["a", "b", "c"]).getD 1 "" =
        (["a", "b", "c"] : List String).getD (1 % 3) "") ∧
    createPhotos 0 [] = [] := by
  have h := createPhotos_count_and_srcs 3 ["a", "b", "c"]
  have h0 := createPhotos_count_and_srcs 0 ([] : List String)
  exact ⟨h.1, ⟨by decide, h.2.1 1 (by decide)⟩, h0.2.2⟩

/-- C9: explicitly passing `0` for any numeric configuration option is
treated as absent — the default is used instead of `0`, because `||`
replaces every falsy value. -/
theorem config_zero_gives_default (o : Options) :
    (o.count = some 0 → (mkConfig o).count = 6) ∧
    (o.size = some 0 → (mkConfig o).size = 70) ∧
    (o.opacity = some 0 → (mkConfig o).opacity = 0.25) ∧
    (o.blur = some 0 → (mkConfig o).blur = 1) ∧
    (o.driftSpeed = some 0 → (mkConfig o).driftSpeed = 0.3) ∧
    (o.mouseInfluence = some 0 → (mkConfig o).mouseInfluence = 0.05) ∧
    (o.mobileScrollInfluence = some 0 → (mkConfig o).mobileScrollInfluence = 0.02) ∧
    (o.zIndex = some 0 → (mkConfig o).zIndex = -1) := by
  refine ⟨?_, ?_, ?_, ?_, ?_, ?_, ?_, ?_⟩ <;> intro h <;> simp [mkConfig, jsOrNum, h]

/-- Witness for `config_zero_gives_default`: an options object passing
`0` for every numeric option resolves to all the defaults. -/
theorem config_zero_gives_default_witness :
    (mkConfig ⟨none, some 0, some 0, some 0, some 0, some 0, some 0, some 0, some 0⟩).count
      = 6 ∧
    (mkConfig ⟨none, some 0, some 0, some 0, some 0, some 0, some 0, some 0, some 0⟩).size
      = 70 ∧
    (mkConfig ⟨none, some 0, some 0, some 0, some 0, some 0, some 0, some 0, some 0⟩).opacity
      = 0.25 ∧
    (mkConfig ⟨none, some 0, some 0, some 0, some 0, some 0, some 0, some 0, some 0⟩).blur
      = 1 ∧
    (mkConfig ⟨none, some 0, some 0, some 0, some 0, some 0, some 0, some 0,
      some 0⟩).driftSpeed = 0.3 ∧
    (mkConfig ⟨none, some 0, some 0, some 0, some 0, some 0, some 0, some 0,
      some 0⟩).mouseInfluence = 0.05 ∧
    (mkConfig ⟨none, some 0, some 0, some 0, some 0, some 0, some 0, some 0,
      some 0⟩).mobileScrollInfluence = 0.02 ∧
    (mkConfig ⟨none, some 0, some 0, some 0, some 0, some 0, some 0, some 0, some 0⟩).zIndex
      = -1 := by
  have h := config_zero_gives_default
    ⟨none, some 0, some 0, some 0, some 0, some 0, some 0, some 0, some 0⟩
  exact ⟨h.1 rfl, h.2.1 rfl, h.2.2.1 rfl, h.2.2.2.1 rfl, h.2.2.2.2.1 rfl,
    h.2.2.2.2.2.1 rfl, h.2.2.2.2.2.2.1 rfl, h.2.2.2.2.2.2.2 rfl⟩

/-- C10: if the pointer coincides with the particle's base position, the
distance is `0 < 300`, the unguarded `dx / distance` is `0 / 0 = NaN`,
and both rendered position components become NaN for that frame. -/
theorem desktop_zero_distance_nan (mouseInfluence x y : ℝ) :
    desktopFinalJS x y mouseInfluence x y = (none, none) := by
  simp only [desktopFinalJS, sub_self, mul_zero, zero_mul, add_zero, Real.sqrt_zero]
  rw [if_pos (by norm_num : (0 : ℝ) < 300)]
  simp [jsDiv, jsMul, jsAdd]

/-- C3: after `destroy()` the frame loop is stopped and the container
element is removed, but the resize listener is NOT detached: `init`
registered the wrapper arrow `() => this.handleResize()`, while
`destroy` passes the distinct bare reference `this.handleResize` to
`removeEventListener`, which therefore removes nothing. -/
theorem destroy_leaves_resize_listener :
    (destroy initDom).rafPending = false ∧
    (destroy initDom).containerMounted = false ∧
    (destroy initDom).resizeListeners = [Listener.resizeWrapper] ∧
    (destroy initDom).resizeListeners ≠ [] := by
  decide

/-- Helper: `pending = 1` exactly when `rafId` is set is preserved by
every frame-loop event. -/
theorem loopStep_inv (s : LoopState) (e : LoopEv)
    (h : s.pending = if s.rafId then 1 else 0) :
    (loopStep s e).pending = if (loopStep s e).rafId then 1 else 0 := by
  cases e with
  | pause =>
    by_cases hr : s.rafId
    · simp only [hr, if_true] at h
      simp [loopStep, hr, h]
    · simpa [loopStep, hr] using h
  | resume =>
    by_cases hr : s.rafId
    · simpa [loopStep, hr] using h
    · simp only [hr, if_false, Bool.false_eq_true] at h
      simp [loopStep, hr, h]
  | frame =>
    by_cases hp : s.pending = 0
    · simpa [loopStep, hp] using h
    · have h1 : s.pending = 1 := by
        by_cases hr : s.rafId
        · simpa [hr] using h
        · simp only [hr, if_false, Bool.false_eq_true] at h
          exact absurd h hp
      simp [loopStep, hp, h1]

/-- Helper: the frame-loop invariant holds after any event sequence from
construction. -/
theorem loopRun_inv (evs : List LoopEv) :
    (loopRun evs).pending = if (loopRun evs).rafId then 1 else 0 := by
  suffices h : ∀ s : LoopState, (s.pending = if s.rafId then 1 else 0) →
      ((evs.foldl loopStep s).pending = if (evs.foldl loopStep s).rafId then 1 else 0) by
    exact h loopInit (by simp [loopInit])
  induction evs with
  | nil => intro s hs; simpa using hs
  | cons e evs ih =>
    intro s hs
    exact ih (loopStep s e) (loopStep_inv s e hs)

/-- C7: after any sequence of pause/resume/frame events, at most one
frame callback is scheduled; a second `pause()` is a no-op; `resume()`
while the loop runs is a no-op; and `pause()` followed by `resume()`
restarts the loop with exactly one scheduled callback. -/
theorem single_frame_callback (evs : List LoopEv) :
    (loopRun evs).pending ≤ 1 ∧
    loopStep (loopStep (loopRun evs) LoopEv.pause) LoopEv.pause =
      loopStep (loopRun evs) LoopEv.pause ∧
    ((loopRun evs).rafId = true → loopStep (loopRun evs) LoopEv.resume = loopRun evs) ∧
    (loopStep (loopStep (loopRun evs) LoopEv.pause) LoopEv.resume).pending = 1 := by
  have hinv := loopRun_inv evs
  refine ⟨?_, ?_, ?_, ?_⟩
  · rw [hinv]; split <;> norm_num
  · by_cases h : (loopRun evs).rafId <;> simp [loopStep, h]
  · intro h; simp [loopStep, h]
  · by_cases h : (loopRun evs).rafId <;> simp_all [loopStep]

/-- Witness for `single_frame_callback`: right after construction the
loop is running, and `resume()` then changes nothing. -/
theorem single_frame_callback_witness :
    (loopRun []).rafId = true ∧
    loopStep (loopRun []) LoopEv.resume = loopRun [] :=
  ⟨by decide, (single_frame_callback []).2.2.1 (by decide)⟩

end FloatingGallery
